import Mathlib

/- Verification development for the Printer installer repository.
   Shallow embedding of: RemoteExecutor.run / RemoteExecutor.close and the
   reset_device polling loop (src/fullinstaller.py), the per-component backup
   loops (src/fullinstaller.py), and the copy_file / atomic_copy primitives
   (src/scripts/lib/file_ops.py). -/

namespace PrinterSpec

/- Text model: Python strings are modelled as lists of Unicode code points
   (Nat).  Python str.lower is modelled on the ASCII range, which covers every
   marker and token the program uses; code points outside 65..90 are left
   unchanged. -/

def pyStr (s : String) : List Nat := s.data.map Char.toNat

def lowerChar (c : Nat) : Nat := if 65 ≤ c ∧ c ≤ 90 then c + 32 else c

def lowerStr (l : List Nat) : List Nat := l.map lowerChar

/- Python substring membership (needle in hay): leadsWith is positional
   equality with an initial segment, substrIn tries every suffix. -/

def leadsWith : List Nat → List Nat → Bool
  | [], _ => true
  | _ :: _, [] => false
  | a :: as, b :: bs => a == b && leadsWith as bs

def substrIn (needle : List Nat) : List Nat → Bool
  | [] => needle.isEmpty
  | c :: rest => leadsWith needle (c :: rest) || substrIn needle rest

/- Python line.rstrip with a carriage-return argument: drop all trailing
   code points 13. -/

def rstripCR (l : List Nat) : List Nat := (l.reverse.dropWhile (fun c => c == 13)).reverse

/- Python buffer.split at the first newline (code point 10), returning the
   line before it and the rest; none when the buffer holds no newline. -/

def splitFirstNl : List Nat → Option (List Nat × List Nat)
  | [] => none
  | c :: rest =>
    if c == 10 then some ([], rest)
    else
      match splitFirstNl rest with
      | none => none
      | some p => some (c :: p.1, p.2)

/- == RemoteExecutor.run (src/fullinstaller.py lines 231-392) ==
   The read loop is driven by a scripted channel: a list of stdout/stderr
   chunks delivered in order, followed by the terminal outcome of the loop -
   either a transport-level exception (drop) or completion with an exit
   status (none models paramiko recv_exit_status raising SSHException).
   Timeout handling, input_data streaming and the per-line callback carry no
   claim and are outside the model; the logger is write-only. -/

inductive StreamKind
  | stdout
  | stderr
deriving DecidableEq

structure RunState where
  stdoutBuf : List Nat
  stderrBuf : List Nat
  stdoutLines : List (List Nat)
  stderrLines : List (List Nat)
  successSeen : Bool
deriving DecidableEq

def RunState.init : RunState := ⟨[], [], [], [], false⟩

def getBuf (st : RunState) : StreamKind → List Nat
  | StreamKind.stdout => st.stdoutBuf
  | StreamKind.stderr => st.stderrBuf

def setBuf (st : RunState) (k : StreamKind) (b : List Nat) : RunState :=
  match k with
  | StreamKind.stdout => { st with stdoutBuf := b }
  | StreamKind.stderr => { st with stderrBuf := b }

/- Source line 292: if success_tokens and any(token in clean_line.lower()
   for token in success_tokens).  The line is lowercased; the token is used
   verbatim. -/

def lineMatches (tokens : List (List Nat)) (cleanLine : List Nat) : Bool :=
  !tokens.isEmpty && tokens.any (fun t => substrIn t (lowerStr cleanLine))

def emitLine (tokens : List (List Nat)) (k : StreamKind) (line : List Nat) (st : RunState) :
    RunState :=
  let clean := rstripCR line
  let st1 :=
    match k with
    | StreamKind.stdout => { st with stdoutLines := st.stdoutLines ++ [clean] }
    | StreamKind.stderr => { st with stderrLines := st.stderrLines ++ [clean] }
  { st1 with successSeen := st1.successSeen || lineMatches tokens clean }

/- The while-newline-in-buffer loop of _process_stream; each pass removes at
   least one code point from the buffer, so the buffer length is enough
   fuel. -/

def drainLines (tokens : List (List Nat)) (k : StreamKind) : Nat → RunState → RunState
  | 0, st => st
  | fuel + 1, st =>
    match splitFirstNl (getBuf st k) with
    | none => st
    | some p => drainLines tokens k fuel (emitLine tokens k p.1 (setBuf st k p.2))

def processStream (tokens : List (List Nat)) (k : StreamKind) (chunk : List Nat)
    (st : RunState) : RunState :=
  let st1 := setBuf st k (getBuf st k ++ chunk)
  drainLines tokens k (getBuf st1 k).length st1

inductive ChanEvent
  | out (chunk : List Nat)
  | err (chunk : List Nat)
deriving DecidableEq

inductive ChanOutcome
  | drop
  | exited (status : Option Int)
deriving DecidableEq

structure ChanScript where
  events : List ChanEvent
  outcome : ChanOutcome

structure CommandResult where
  stdoutLines : List (List Nat)
  stderrLines : List (List Nat)
  exitStatus : Option Int
  successTokensSeen : Bool
deriving DecidableEq

inductive RunError
  | commandExecutionError
deriving DecidableEq

deriving instance DecidableEq for Except

def foldEvents (tokens : List (List Nat)) (events : List ChanEvent) (st : RunState) :
    RunState :=
  events.foldl
    (fun st e =>
      match e with
      | ChanEvent.out c => processStream tokens StreamKind.stdout c st
      | ChanEvent.err c => processStream tokens StreamKind.stderr c st)
    st

/- Source lines 325-328: residual partial lines are flushed by feeding one
   newline into each non-empty buffer. -/

def flushResidual (tokens : List (List Nat)) (st : RunState) : RunState :=
  let st1 := if st.stdoutBuf.isEmpty then st else processStream tokens StreamKind.stdout [10] st
  if st1.stderrBuf.isEmpty then st1 else processStream tokens StreamKind.stderr [10] st1

namespace RemoteExecutor

/- Source lines 300-392.  On a transport exception inside the read loop
   (lines 335-349) the exit status has not been fetched yet; the code closes
   the session and, when expect_disconnect is set, returns a successful
   result unconditionally.  On completion (lines 351-392): line 357 tests
   exit_status in (0, None) or success_seen; line 375 tests exit_status != 0,
   which also fires when the status is absent. -/

def run (expectDisconnect : Bool) (tokens : List (List Nat)) (script : ChanScript) :
    Except RunError CommandResult :=
  let st := foldEvents tokens script.events RunState.init
  match script.outcome with
  | ChanOutcome.drop =>
    match expectDisconnect with
    | true => Except.ok ⟨st.stdoutLines, st.stderrLines, none, st.successSeen⟩
    | false => Except.error RunError.commandExecutionError
  | ChanOutcome.exited status =>
    let st1 := flushResidual tokens st
    match expectDisconnect with
    | true =>
      if status = some 0 ∨ status = none ∨ st1.successSeen = true then
        Except.ok ⟨st1.stdoutLines, st1.stderrLines, none, st1.successSeen⟩
      else Except.error RunError.commandExecutionError
    | false =>
      if status = some 0 then
        Except.ok ⟨st1.stdoutLines, st1.stderrLines, status, st1.successSeen⟩
      else Except.error RunError.commandExecutionError

end RemoteExecutor

/- == RemoteExecutor.close (src/fullinstaller.py lines 201-206) ==
   The client is abstracted to the one bit that matters here: whether its
   underlying close raises.  The source is a try/finally with no except
   clause: the reference is cleared in the finally block, but an exception
   from the underlying close propagates to the caller. -/

structure SSHClient where
  closeRaises : Bool
deriving DecidableEq

structure ExecutorState where
  client : Option SSHClient
deriving DecidableEq

inductive CloseError
  | underlyingCloseFailed
deriving DecidableEq

namespace RemoteExecutor

def close (st : ExecutorState) : Option CloseError × ExecutorState :=
  match st.client with
  | none => (none, st)
  | some c =>
    (if c.closeRaises then some CloseError.underlyingCloseFailed else none,
      ExecutorState.mk none)

end RemoteExecutor

/- == reset_device polling loop (src/fullinstaller.py lines 1617-1628) ==
   Each iteration sleeps the fixed 5 second interval, then: a closed control
   port means continue; connect(force=True) plus run of the echo command
   either raises an InstallerError (every executor error is an InstallerError
   subclass, caught at line 1624, after which the stale session is closed and
   the loop continues) or yields the echo output; the loop breaks only when
   that output contains the marker text online (line 1627). -/

def onlineMarker : List Nat := pyStr "online"

inductive ProbeStep
  | portClosed
  | probeError
  | echoOutput (stdout : List Nat)

inductive IterAction
  | continueNoClose
  | continueAfterClose
  | goOnline
deriving DecidableEq

def pollIteration : ProbeStep → IterAction
  | ProbeStep.portClosed => IterAction.continueNoClose
  | ProbeStep.probeError => IterAction.continueAfterClose
  | ProbeStep.echoOutput out =>
    if substrIn onlineMarker out then IterAction.goOnline else IterAction.continueNoClose

/- The source loop has no overall deadline; fuel bounds the number of
   iterations we inspect.  The returned value is the index of the probe on
   which the loop broke out. -/

def pollLoop (probes : Nat → ProbeStep) : Nat → Nat → Option Nat
  | 0, _ => none
  | fuel + 1, i =>
    match pollIteration (probes i) with
    | IterAction.goOnline => some i
    | _ => pollLoop probes fuel (i + 1)

/- == Per-component backup loops (src/fullinstaller.py) ==
   backup_moonraker_stats lines 949-990, backup_timelapse_files lines
   1114-1186, backup_gcode_files lines 1379-1413.  The per-file sftp.get is
   abstracted to a success oracle; files is the already-enumerated file_infos
   list.  The attempted field records every file on which a transfer was
   attempted (sftp.get reached), the instrumentation needed to express that a
   failure does not abort the remaining files.  Progress-monitor bookkeeping
   and size prefetching carry no claim and are omitted. -/

structure BackupReport where
  succeeded : Nat
  failed : List String
  attempted : List String
deriving DecidableEq

def backupLoop (get : String → Bool) (files : List String) : BackupReport :=
  files.foldl
    (fun acc f =>
      if get f then
        { acc with succeeded := acc.succeeded + 1, attempted := acc.attempted ++ [f] }
      else { acc with failed := acc.failed ++ [f], attempted := acc.attempted ++ [f] })
    ⟨0, [], []⟩

inductive BackupError
  | fileTransferError (failedFiles : List String)
deriving DecidableEq

inductive BackupWarning
  | failedCount (n : Nat)
deriving DecidableEq

/- Lines 982-985: after the loop, a non-empty failed list raises
   FileTransferError naming the failed remote files. -/

def backup_moonraker_stats (get : String → Bool) (targets : List String) :
    Except BackupError BackupReport :=
  if (backupLoop get targets).failed.isEmpty then Except.ok (backupLoop get targets)
  else Except.error (BackupError.fileTransferError (backupLoop get targets).failed)

/- Lines 1178-1181 and 1405-1408: after the loop, a non-empty failed list
   only logs a warning carrying the failure count; nothing is raised. -/

def mediaBackup (get : String → Bool) (fileInfos : List String) :
    Except BackupError (BackupReport × Option BackupWarning) :=
  Except.ok
    (backupLoop get fileInfos,
      if (backupLoop get fileInfos).failed.isEmpty then none
      else some (BackupWarning.failedCount (backupLoop get fileInfos).failed.length))

def backup_timelapse_files (get : String → Bool) (fileInfos : List String) :
    Except BackupError (BackupReport × Option BackupWarning) :=
  mediaBackup get fileInfos

def backup_gcode_files (get : String → Bool) (fileInfos : List String) :
    Except BackupError (BackupReport × Option BackupWarning) :=
  mediaBackup get fileInfos

/- == copy_file and atomic_copy (src/scripts/lib/file_ops.py) ==
   The local filesystem is reduced to what the two functions observe: source
   existence and byte size, the free space statvfs reports at the destination
   parent, and the destination file (none, or its byte size).  The copy
   primitive shutil.copy2 together with the following fsync is driven by a
   per-attempt fault oracle: Fault.raise models any IOError/OSError raised
   inside the attempt body, Fault.write n models a copy that leaves an n-byte
   file (n equal to the source size is a faithful copy).  The trace records
   every filesystem mutation in order; sleeps records the backoff delays in
   milliseconds; attempts counts loop iterations that ran.  The mode/chmod
   parameter is not modelled (no claim concerns it). -/

inductive Fault
  | raise
  | write (n : Nat)
deriving DecidableEq

inductive FsOp
  | mkdirParents
  | unlinkDst
  | writeDst (n : Nat)
  | writeTmp (attempt n : Nat)
  | unlinkTmp (attempt : Nat)
  | replaceTmpDst (attempt : Nat)
deriving DecidableEq

inductive AttemptError
  | ioFault
  | sizeMismatch (expected got : Nat)
  | emptyFile
deriving DecidableEq

inductive CopyError
  | fileNotFound
  | insufficientSpace (required available : Nat)
  | copyFailedAfterRetries (attempts : Nat) (last : AttemptError)
  | copyFailedNoAttempt
deriving DecidableEq

structure CopyEnv where
  srcExists : Bool
  srcSize : Nat
  availableSpace : Nat
  dst0 : Option Nat
  fault : Nat → Fault

structure CopyOut where
  result : Except CopyError Unit
  dst : Option Nat
  trace : List FsOp
  sleeps : List Nat
  attempts : Nat
deriving DecidableEq

/- Line 35: required_space = int(src_size * 1.5), which truncates toward
   zero; on Nat this is 3 * n / 2. -/

def requiredSpace (n : Nat) : Nat := 3 * n / 2

/- Line 88: sleep_time = 0.5 * (2 ** attempt) seconds, here in
   milliseconds. -/

def backoffMs (attempt : Nat) : Nat := 500 * 2 ^ attempt

/- Lines 47-48 and 83-84: if dst_path.exists(): dst_path.unlink(). -/

def cleanupDst (dst : Option Nat) (trace : List FsOp) : Option Nat × List FsOp :=
  match dst with
  | some _ => (none, trace ++ [FsOp.unlinkDst])
  | none => (none, trace)

/- Lines 50-77: one attempt body of copy_file (copy, fsync, verify). -/

def copyFileAttempt (env : CopyEnv) (verify : Bool) (dst : Option Nat) (trace : List FsOp)
    (fault : Fault) : Except AttemptError Unit × Option Nat × List FsOp :=
  match fault with
  | Fault.raise => (Except.error AttemptError.ioFault, dst, trace)
  | Fault.write n =>
    let trace1 := trace ++ [FsOp.writeDst n]
    if verify ∧ ¬ n = env.srcSize then
      (Except.error (AttemptError.sizeMismatch env.srcSize n), some n, trace1)
    else if verify ∧ 0 < env.srcSize ∧ n = 0 then
      (Except.error AttemptError.emptyFile, some n, trace1)
    else (Except.ok (), some n, trace1)

/- Lines 44-98: for attempt in range(max_retries), modelled with the
   invariant attempt + remaining = max_retries. -/

def copyFileLoop (env : CopyEnv) (verify : Bool) (maxRetries : Nat) :
    (attempt : Nat) → (remaining : Nat) → Option Nat → List FsOp → List Nat → CopyOut
  | attempt, 0, dst, trace, sleeps =>
    ⟨Except.error CopyError.copyFailedNoAttempt, dst, trace, sleeps, attempt⟩
  | attempt, remaining + 1, dst, trace, sleeps =>
    let c := cleanupDst dst trace
    match copyFileAttempt env verify c.1 c.2 (env.fault attempt) with
    | (Except.ok _, dst1, trace1) => ⟨Except.ok (), dst1, trace1, sleeps, attempt + 1⟩
    | (Except.error e, dst1, trace1) =>
      let c2 := cleanupDst dst1 trace1
      match remaining with
      | 0 =>
        ⟨Except.error (CopyError.copyFailedAfterRetries maxRetries e), c2.1, c2.2, sleeps,
          attempt + 1⟩
      | remaining1 + 1 =>
        copyFileLoop env verify maxRetries (attempt + 1) (remaining1 + 1) c2.1 c2.2
          (sleeps ++ [backoffMs attempt])

/- Lines 15-98: copy_file.  Source-existence check, ensure_directory on the
   destination parent when make_parents is set, the free-space check (only
   when verify and the source is non-empty), then the retry loop. -/

def copy_file (env : CopyEnv) (verify makeParents : Bool) (maxRetries : Nat) : CopyOut :=
  if env.srcExists = false then ⟨Except.error CopyError.fileNotFound, env.dst0, [], [], 0⟩
  else
    let trace := if makeParents then [FsOp.mkdirParents] else []
    if verify ∧ 0 < env.srcSize ∧ env.availableSpace < requiredSpace env.srcSize then
      ⟨Except.error (CopyError.insufficientSpace (requiredSpace env.srcSize) env.availableSpace),
        env.dst0, trace, [], 0⟩
    else copyFileLoop env verify maxRetries 0 maxRetries env.dst0 trace []

/- Lines 131-178: one attempt body of atomic_copy: copy to the per-attempt
   temp path, fsync, verify the temp file, os.replace onto the destination,
   final verification.  The tuple is (result, temp file, destination,
   trace). -/

def atomicAttempt (env : CopyEnv) (verify : Bool) (attempt : Nat) (dst : Option Nat)
    (trace : List FsOp) (fault : Fault) :
    Except AttemptError Unit × Option Nat × Option Nat × List FsOp :=
  match fault with
  | Fault.raise => (Except.error AttemptError.ioFault, none, dst, trace)
  | Fault.write n =>
    let trace1 := trace ++ [FsOp.writeTmp attempt n]
    if verify ∧ ¬ n = env.srcSize then
      (Except.error (AttemptError.sizeMismatch env.srcSize n), some n, dst, trace1)
    else if verify ∧ 0 < env.srcSize ∧ n = 0 then
      (Except.error AttemptError.emptyFile, some n, dst, trace1)
    else
      let trace2 := trace1 ++ [FsOp.replaceTmpDst attempt]
      if verify ∧ ¬ n = env.srcSize then
        (Except.error (AttemptError.sizeMismatch env.srcSize n), none, some n, trace2)
      else (Except.ok (), none, some n, trace2)

/- Lines 183-192: except-branch cleanup of atomic_copy: unlink the temp file
   if present; unlink the destination only when verify is set and its size
   does not match the source. -/

def atomicCleanup (env : CopyEnv) (verify : Bool) (attempt : Nat) (tmp dst : Option Nat)
    (trace : List FsOp) : Option Nat × List FsOp :=
  let trace1 :=
    match tmp with
    | some _ => trace ++ [FsOp.unlinkTmp attempt]
    | none => trace
  match dst with
  | some m =>
    if verify ∧ ¬ m = env.srcSize then (none, trace1 ++ [FsOp.unlinkDst]) else (some m, trace1)
  | none => (none, trace1)

def atomicLoop (env : CopyEnv) (verify : Bool) (maxRetries : Nat) :
    (attempt : Nat) → (remaining : Nat) → Option Nat → List FsOp → List Nat → CopyOut
  | attempt, 0, dst, trace, sleeps =>
    ⟨Except.error CopyError.copyFailedNoAttempt, dst, trace, sleeps, attempt⟩
  | attempt, remaining + 1, dst, trace, sleeps =>
    match atomicAttempt env verify attempt dst trace (env.fault attempt) with
    | (Except.ok _, _, dst1, trace1) => ⟨Except.ok (), dst1, trace1, sleeps, attempt + 1⟩
    | (Except.error e, tmp1, dst1, trace1) =>
      let c := atomicCleanup env verify attempt tmp1 dst1 trace1
      match remaining with
      | 0 =>
        ⟨Except.error (CopyError.copyFailedAfterRetries maxRetries e), c.1, c.2, sleeps,
          attempt + 1⟩
      | remaining1 + 1 =>
        atomicLoop env verify maxRetries (attempt + 1) (remaining1 + 1) c.1 c.2
          (sleeps ++ [backoffMs attempt])

/- Lines 101-206: atomic_copy.  ensure_directory is unconditional here. -/

def atomic_copy (env : CopyEnv) (verify : Bool) (maxRetries : Nat) : CopyOut :=
  if env.srcExists = false then ⟨Except.error CopyError.fileNotFound, env.dst0, [], [], 0⟩
  else
    let trace := [FsOp.mkdirParents]
    if verify ∧ 0 < env.srcSize ∧ env.availableSpace < requiredSpace env.srcSize then
      ⟨Except.error (CopyError.insufficientSpace (requiredSpace env.srcSize) env.availableSpace),
        env.dst0, trace, [], 0⟩
    else atomicLoop env verify maxRetries 0 maxRetries env.dst0 trace []

/- == Helper lemmas: the success-seen flag is latched == -/

theorem setBuf_successSeen (st : RunState) (k : StreamKind) (b : List Nat) :
    (setBuf st k b).successSeen = st.successSeen := by
  cases k <;> rfl

theorem emitLine_latch (tokens : List (List Nat)) (k : StreamKind) (line : List Nat)
    (st : RunState) (h : st.successSeen = true) :
    (emitLine tokens k line st).successSeen = true := by
  cases k <;> simp [emitLine, h]

theorem drainLines_latch (tokens : List (List Nat)) (k : StreamKind) :
    ∀ fuel st, st.successSeen = true → (drainLines tokens k fuel st).successSeen = true := by
  intro fuel
  induction fuel with
  | zero => intro st h; exact h
  | succ n ih =>
    intro st h
    simp only [drainLines]
    cases hs : splitFirstNl (getBuf st k) with
    | none => exact h
    | some p =>
      exact ih _ (emitLine_latch _ _ _ _ (by rw [setBuf_successSeen]; exact h))

theorem processStream_latch (tokens : List (List Nat)) (k : StreamKind) (chunk : List Nat)
    (st : RunState) (h : st.successSeen = true) :
    (processStream tokens k chunk st).successSeen = true := by
  unfold processStream
  exact drainLines_latch _ _ _ _ (by rw [setBuf_successSeen]; exact h)

theorem foldEvents_latch (tokens : List (List Nat)) :
    ∀ events st, st.successSeen = true → (foldEvents tokens events st).successSeen = true := by
  intro events
  induction events with
  | nil => intro st h; exact h
  | cons e rest ih =>
    intro st h
    cases e with
    | out c => exact ih _ (processStream_latch tokens StreamKind.stdout c st h)
    | err c => exact ih _ (processStream_latch tokens StreamKind.stderr c st h)

/- == Helper lemmas: substring membership and lowercasing == -/

theorem leadsWith_mem : ∀ (t h : List Nat), leadsWith t h = true → ∀ c ∈ t, c ∈ h := by
  intro t
  induction t with
  | nil => intro h _ c hc; cases hc
  | cons a as ih =>
    intro h hl c hc
    cases h with
    | nil => simp [leadsWith] at hl
    | cons b bs =>
      simp only [leadsWith, Bool.and_eq_true, beq_iff_eq] at hl
      rcases List.mem_cons.mp hc with hca | hcs
      · exact hca ▸ hl.1 ▸ List.mem_cons_self b bs
      · exact List.mem_cons_of_mem b (ih bs hl.2 c hcs)

theorem substrIn_mem : ∀ (hay t : List Nat), substrIn t hay = true → ∀ c ∈ t, c ∈ hay := by
  intro hay
  induction hay with
  | nil =>
    intro t ht c hc
    simp only [substrIn, List.isEmpty_iff] at ht
    subst ht
    cases hc
  | cons x rest ih =>
    intro t ht c hc
    rcases Bool.or_eq_true_iff.mp ht with hl | hr
    · exact leadsWith_mem t _ hl c hc
    · exact List.mem_cons_of_mem x (ih t hr c hc)

theorem lowerChar_not_upper (c : Nat) : ¬ (65 ≤ lowerChar c ∧ lowerChar c ≤ 90) := by
  unfold lowerChar
  split <;> omega

/-- C7 counterexample: with the configured success token OK (uppercase) and the
emitted output line OK, the line and the token agree letter for letter, yet the
success-observed flag stays false, because the source lowercases only the line
(line 293) and then looks for the uppercase token inside the lowercased text. -/
theorem C7_uppercase_token_fails :
    (processStream [pyStr "OK"] StreamKind.stdout (pyStr "OK\x0a") RunState.init).successSeen =
      false := by decide

/-- C7 (amended): the token check lowercases only the emitted line, so it is
case-insensitive in the line but literal in the token: (1) lines with equal
lowercasings match exactly the same tokens, (2) once the success-observed flag
is set it stays set for the remainder of the call, and (3) a token containing
an uppercase ASCII letter can never match any line. -/
theorem C7_token_matching (tokens : List (List Nat)) :
    (∀ l l2, lowerStr l = lowerStr l2 → lineMatches tokens l = lineMatches tokens l2) ∧
    (∀ events st, st.successSeen = true → (foldEvents tokens events st).successSeen = true) ∧
    (∀ t, t ∈ tokens → ∀ c ∈ t, 65 ≤ c → c ≤ 90 → ∀ l, substrIn t (lowerStr l) = false) := by
  refine ⟨?_, foldEvents_latch tokens, ?_⟩
  · intro l l2 h
    simp [lineMatches, h]
  · intro t _ c hc h65 h90 l
    cases hs : substrIn t (lowerStr l)
    · rfl
    · exfalso
      have hmem := substrIn_mem (lowerStr l) t hs c hc
      rcases List.mem_map.mp hmem with ⟨d, _, hd⟩
      exact lowerChar_not_upper d (hd ▸ ⟨h65, h90⟩)

theorem C7_token_matching_witness :
    lowerStr (pyStr "OK") = lowerStr (pyStr "ok") ∧
    lineMatches [pyStr "ok"] (pyStr "OK") = lineMatches [pyStr "ok"] (pyStr "ok") :=
  ⟨by decide, (C7_token_matching [pyStr "ok"]).1 (pyStr "OK") (pyStr "ok") (by decide)⟩

/-- C1 counterexample: an expect_disconnect invocation whose transport drops in
the read loop after emitting only the line update failed - no success token
observed, no exit status ever reported - still returns a successful
CommandResult (exit status absent, success flag false), where the claim
requires CommandExecutionError. -/
theorem C1_drop_without_token_returns_ok :
    RemoteExecutor.run true [pyStr "ok"]
        ⟨[ChanEvent.out (pyStr "update failed\x0a")], ChanOutcome.drop⟩ =
      Except.ok ⟨[pyStr "update failed"], [], none, false⟩ := by decide

/-- C1 (amended): when the transport drops inside the read loop, the exit
status has not been fetched yet, so with expect_disconnect=true the call
always returns a successful CommandResult with exit_status absent - whether or
not a success token was observed - and with expect_disconnect=false it always
raises CommandExecutionError. -/
theorem C1_drop_semantics (tokens : List (List Nat)) (events : List ChanEvent) :
    (∃ r, RemoteExecutor.run true tokens ⟨events, ChanOutcome.drop⟩ = Except.ok r ∧
        r.exitStatus = none) ∧
    RemoteExecutor.run false tokens ⟨events, ChanOutcome.drop⟩ =
      Except.error RunError.commandExecutionError :=
  ⟨⟨_, rfl, rfl⟩, rfl⟩

/-- C8: a successfully returned CommandResult with exit_status absent can only
come from an expect_disconnect=true invocation, and with
expect_disconnect=false the call either fails or returns exit_status 0. -/
theorem C8_absent_exit_status (ed : Bool) (tokens : List (List Nat)) (script : ChanScript)
    (r : CommandResult) (h : RemoteExecutor.run ed tokens script = Except.ok r) :
    (r.exitStatus = none → ed = true) ∧ (ed = false → r.exitStatus = some 0) := by
  rcases script with ⟨events, outcome⟩
  cases outcome with
  | drop =>
    cases ed with
    | false => simp [RemoteExecutor.run] at h
    | true => exact ⟨fun _ => rfl, fun hf => by cases hf⟩
  | exited status =>
    cases ed with
    | false =>
      simp only [RemoteExecutor.run] at h
      split at h
      · rename_i hs
        rcases Except.ok.inj h with h2
        subst h2
        exact ⟨fun hn => by simp [hs] at hn, fun _ => hs⟩
      · cases h
    | true =>
      simp only [RemoteExecutor.run] at h
      split at h
      · rcases Except.ok.inj h with h2
        subst h2
        exact ⟨fun _ => rfl, fun hf => by cases hf⟩
      · cases h

theorem C8_absent_exit_status_witness :
    RemoteExecutor.run false [] ⟨[], ChanOutcome.exited (some 0)⟩ =
      Except.ok ⟨[], [], some 0, false⟩ ∧
    (((some 0 : Option Int) = none → false = true) ∧
      (false = false → (some 0 : Option Int) = some 0)) :=
  ⟨by decide,
    C8_absent_exit_status false [] ⟨[], ChanOutcome.exited (some 0)⟩ ⟨[], [], some 0, false⟩
      (by decide)⟩

/-- C9 counterexample: when the session is present and the underlying client
close raises, RemoteExecutor.close propagates the error to its caller (the
client reference is cleared in the finally block, but nothing catches the
exception), where the claim says the error is swallowed. -/
theorem C9_close_error_propagates :
    RemoteExecutor.close ⟨some ⟨true⟩⟩ = (some CloseError.underlyingCloseFailed, ⟨none⟩) := by
  decide

/-- C9 (amended): close() with no open session is a no-op that never raises;
with a session present the client reference is cleared unconditionally, so a
repeated close is a raise-free no-op, but an error raised by the underlying
client close propagates to the caller instead of being swallowed. -/
theorem C9_close_idempotent (st : ExecutorState) :
    (st.client = none → RemoteExecutor.close st = (none, st)) ∧
    (RemoteExecutor.close st).2.client = none ∧
    RemoteExecutor.close (RemoteExecutor.close st).2 = (none, (RemoteExecutor.close st).2) ∧
    (∀ c, st.client = some c →
      (RemoteExecutor.close st).1 =
        if c.closeRaises then some CloseError.underlyingCloseFailed else none) := by
  rcases st with ⟨cl⟩
  cases cl with
  | none => exact ⟨fun _ => rfl, rfl, rfl, fun c hc => by cases hc⟩
  | some c =>
    refine ⟨?_, rfl, rfl, ?_⟩
    · intro hn
      cases hn
    · intro c2 hc
      rcases Option.some.inj hc with h2
      subst h2
      rfl

theorem C9_close_idempotent_witness :
    RemoteExecutor.close ⟨none⟩ = (none, ⟨none⟩) :=
  (C9_close_idempotent ⟨none⟩).1 rfl

/- == C5: reset_device polling loop == -/

theorem pollIteration_online (p : ProbeStep) (h : pollIteration p = IterAction.goOnline) :
    ∃ out, p = ProbeStep.echoOutput out ∧ substrIn onlineMarker out = true := by
  cases p with
  | portClosed => simp [pollIteration] at h
  | probeError => simp [pollIteration] at h
  | echoOutput out =>
    cases hs : substrIn onlineMarker out with
    | false => simp [pollIteration, hs] at h
    | true => exact ⟨out, rfl, hs⟩

/-- C5: the polling loop exits (reporting the device online) only on a probe
whose echo command ran without error and whose output contains the marker text
online; a closed control port only continues the loop, and an InstallerError
while reconnecting or echoing closes the stale session and continues the loop
- neither is a hard failure. -/
theorem C5_polling_exit (probes : Nat → ProbeStep) (fuel i j : Nat)
    (h : pollLoop probes fuel i = some j) :
    (∃ out, probes j = ProbeStep.echoOutput out ∧ substrIn onlineMarker out = true) ∧
    pollIteration ProbeStep.portClosed = IterAction.continueNoClose ∧
    pollIteration ProbeStep.probeError = IterAction.continueAfterClose := by
  refine ⟨?_, rfl, rfl⟩
  induction fuel generalizing i with
  | zero => cases h
  | succ n ih =>
    cases ha : pollIteration (probes i) with
    | goOnline =>
      simp only [pollLoop, ha] at h
      rcases Option.some.inj h with h2
      subst h2
      exact pollIteration_online _ ha
    | continueNoClose =>
      simp only [pollLoop, ha] at h
      exact ih _ h
    | continueAfterClose =>
      simp only [pollLoop, ha] at h
      exact ih _ h

theorem C5_polling_exit_witness :
    ∃ out, (fun _ : Nat => ProbeStep.echoOutput (pyStr "device online")) 3 =
        ProbeStep.echoOutput out ∧ substrIn onlineMarker out = true :=
  (C5_polling_exit (fun _ => ProbeStep.echoOutput (pyStr "device online")) 1 3 3 (by decide)).1

/- == C6: per-component backup == -/

theorem backupLoop_attempted_aux (get : String → Bool) :
    ∀ (files : List String) (acc : BackupReport),
      (files.foldl
          (fun acc f =>
            if get f then
              { acc with succeeded := acc.succeeded + 1, attempted := acc.attempted ++ [f] }
            else { acc with failed := acc.failed ++ [f], attempted := acc.attempted ++ [f] })
          acc).attempted = acc.attempted ++ files := by
  intro files
  induction files with
  | nil => intro acc; simp
  | cons f rest ih =>
    intro acc
    cases hg : get f with
    | true =>
      rw [List.foldl_cons, if_pos hg, ih]
      simp
    | false =>
      rw [List.foldl_cons, if_neg (by simp [hg]), ih]
      simp

theorem backupLoop_attempted (get : String → Bool) (files : List String) :
    (backupLoop get files).attempted = files := by
  unfold backupLoop
  rw [backupLoop_attempted_aux]
  rfl

/-- C6 counterexample: in the gcode component, one file of two fails to
transfer; the function completes normally, returning the report and a warning
carrying the failure count - it does not raise, and nothing in its output
lists the failed file for the caller as an error, where the claim requires an
error naming every failed file for every component. -/
theorem C6_gcode_failure_does_not_raise :
    backup_gcode_files (fun f => f == "a.gcode") ["a.gcode", "b.gcode"] =
      Except.ok (⟨1, ["b.gcode"], ["a.gcode", "b.gcode"]⟩,
        some (BackupWarning.failedCount 1)) := by decide

/-- C6 (amended): in every component a single file's transfer failure does not
abort the remaining files (every file in the enumerated list is attempted);
the Moonraker database component raises FileTransferError naming exactly the
failed files, and raises whenever at least one file failed; the timelapse and
gcode components never raise on per-file failures - they return normally with
a warning that is present exactly when some file failed. -/
theorem C6_per_file_isolation :
    (∀ get files, (backupLoop get files).attempted = files) ∧
    (∀ get targets fs, backup_moonraker_stats get targets =
        Except.error (BackupError.fileTransferError fs) →
        fs = (backupLoop get targets).failed ∧ (backupLoop get targets).failed ≠ []) ∧
    (∀ get targets, (backupLoop get targets).failed ≠ [] →
        backup_moonraker_stats get targets =
          Except.error (BackupError.fileTransferError (backupLoop get targets).failed)) ∧
    (∀ get files, ∃ rep w, backup_timelapse_files get files = Except.ok (rep, w) ∧
        rep.attempted = files ∧ (rep.failed = [] ↔ w = none)) ∧
    (∀ get files, ∃ rep w, backup_gcode_files get files = Except.ok (rep, w) ∧
        rep.attempted = files ∧ (rep.failed = [] ↔ w = none)) := by
  refine ⟨backupLoop_attempted, ?_, ?_, ?_, ?_⟩
  · intro get targets fs h
    unfold backup_moonraker_stats at h
    cases hfe : (backupLoop get targets).failed with
    | nil => rw [hfe] at h; simp at h
    | cons a as =>
      rw [hfe] at h
      simp at h
      exact ⟨h.symm, by simp⟩
  · intro get targets hne
    unfold backup_moonraker_stats
    cases hfe : (backupLoop get targets).failed with
    | nil => exact absurd hfe hne
    | cons a as => simp
  · intro get files
    refine ⟨backupLoop get files, _, rfl, backupLoop_attempted get files, ?_⟩
    cases hfe : (backupLoop get files).failed with
    | nil => simp [hfe]
    | cons a as => simp [hfe]
  · intro get files
    refine ⟨backupLoop get files, _, rfl, backupLoop_attempted get files, ?_⟩
    cases hfe : (backupLoop get files).failed with
    | nil => simp [hfe]
    | cons a as => simp [hfe]

theorem C6_per_file_isolation_witness :
    (backupLoop (fun f => f == "data.mdb") ["data.mdb", "moonraker-sql.db"]).failed ≠ [] ∧
    backup_moonraker_stats (fun f => f == "data.mdb") ["data.mdb", "moonraker-sql.db"] =
      Except.error (BackupError.fileTransferError
        (backupLoop (fun f => f == "data.mdb") ["data.mdb", "moonraker-sql.db"]).failed) :=
  ⟨by decide,
    C6_per_file_isolation.2.2.1 (fun f => f == "data.mdb") ["data.mdb", "moonraker-sql.db"]
      (by decide)⟩

/- == C2: pre-flight capacity check == -/

/-- C2 counterexample: first, a 4-byte source with 5 bytes free (5 < 6 =
int(1.5 * 4)) does raise the insufficient-space error, but only after
ensure_directory has already created the destination parent (mkdirParents is
in the trace), so the filesystem is touched; second, a 1-byte source with 1
byte free has free space strictly below 1.5 times the source size, yet no
insufficient-space error is raised at all - int(1 * 1.5) truncates to 1 and
the copy proceeds and succeeds. -/
theorem C2_capacity_check_counterexample :
    atomic_copy ⟨true, 4, 5, some 7, fun _ => Fault.write 4⟩ true 3 =
      ⟨Except.error (CopyError.insufficientSpace 6 5), some 7, [FsOp.mkdirParents], [], 0⟩ ∧
    (copy_file ⟨true, 1, 1, none, fun _ => Fault.write 1⟩ true true 3).result =
      Except.ok () := ⟨by decide, by decide⟩

/-- C2 (amended): for a non-empty source and reported free space strictly
below int(1.5 * size) bytes, both copy primitives raise the
insufficient-space error before any temporary or destination file is written
and before any attempt runs, but after the destination's parent directory has
been created; the pre-existing destination is left untouched. -/
theorem C2_capacity_check (env : CopyEnv) (mr : Nat) (h1 : env.srcExists = true)
    (h2 : 0 < env.srcSize) (h3 : env.availableSpace < requiredSpace env.srcSize) :
    copy_file env true true mr =
      ⟨Except.error (CopyError.insufficientSpace (requiredSpace env.srcSize)
          env.availableSpace), env.dst0, [FsOp.mkdirParents], [], 0⟩ ∧
    atomic_copy env true mr =
      ⟨Except.error (CopyError.insufficientSpace (requiredSpace env.srcSize)
          env.availableSpace), env.dst0, [FsOp.mkdirParents], [], 0⟩ := by
  constructor
  · unfold copy_file
    rw [if_neg (by simp [h1]), if_pos ⟨rfl, h2, h3⟩]
    rfl
  · unfold atomic_copy
    rw [if_neg (by simp [h1]), if_pos ⟨rfl, h2, h3⟩]

theorem C2_capacity_check_witness :
    copy_file ⟨true, 4, 5, some 7, fun _ => Fault.raise⟩ true true 3 =
      ⟨Except.error (CopyError.insufficientSpace 6 5), some 7, [FsOp.mkdirParents], [], 0⟩ ∧
    atomic_copy ⟨true, 4, 5, some 7, fun _ => Fault.raise⟩ true 3 =
      ⟨Except.error (CopyError.insufficientSpace 6 5), some 7, [FsOp.mkdirParents], [], 0⟩ :=
  C2_capacity_check ⟨true, 4, 5, some 7, fun _ => Fault.raise⟩ 3 rfl (by decide) (by decide)

/- == C3: retry exhaustion == -/

theorem range_map_shift (f : Nat → Nat) (n a : Nat) :
    (List.range (n + 1)).map (fun i => f (a + i)) =
      f a :: (List.range n).map (fun i => f (a + 1 + i)) := by
  have hfun : ((fun i => f (a + i)) ∘ Nat.succ) = fun i => f (a + 1 + i) := by
    funext i
    simp only [Function.comp]
    congr 1
    omega
  rw [List.range_succ_eq_map, List.map_cons, List.map_map, hfun]
  simp

theorem copy_file_eq_loop (env : CopyEnv) (verify makeParents : Bool) (mr : Nat)
    (h1 : env.srcExists = true) (h2 : requiredSpace env.srcSize ≤ env.availableSpace) :
    copy_file env verify makeParents mr =
      copyFileLoop env verify mr 0 mr env.dst0
        (if makeParents then [FsOp.mkdirParents] else []) [] := by
  unfold copy_file
  rw [if_neg (by simp [h1]), if_neg (by rintro ⟨_, _, hlt⟩; omega)]

theorem atomic_copy_eq_loop (env : CopyEnv) (verify : Bool) (mr : Nat)
    (h1 : env.srcExists = true) (h2 : requiredSpace env.srcSize ≤ env.availableSpace) :
    atomic_copy env verify mr =
      atomicLoop env verify mr 0 mr env.dst0 [FsOp.mkdirParents] [] := by
  unfold atomic_copy
  rw [if_neg (by simp [h1]), if_neg (by rintro ⟨_, _, hlt⟩; omega)]

theorem copyFileLoop_allRaise (env : CopyEnv) (verify : Bool) (mr : Nat)
    (hf : ∀ a, env.fault a = Fault.raise) :
    ∀ rem, 0 < rem → ∀ attempt dst trace sleeps,
      (copyFileLoop env verify mr attempt rem dst trace sleeps).result =
          Except.error (CopyError.copyFailedAfterRetries mr AttemptError.ioFault) ∧
      (copyFileLoop env verify mr attempt rem dst trace sleeps).attempts = attempt + rem ∧
      (copyFileLoop env verify mr attempt rem dst trace sleeps).sleeps =
        sleeps ++ (List.range (rem - 1)).map (fun i => backoffMs (attempt + i)) := by
  intro rem
  induction rem with
  | zero => intro h; omega
  | succ r ih =>
    intro _ attempt dst trace sleeps
    cases r with
    | zero =>
      have hterm : copyFileLoop env verify mr attempt 1 dst trace sleeps =
          ⟨Except.error (CopyError.copyFailedAfterRetries mr AttemptError.ioFault),
            (cleanupDst (cleanupDst dst trace).1 (cleanupDst dst trace).2).1,
            (cleanupDst (cleanupDst dst trace).1 (cleanupDst dst trace).2).2,
            sleeps, attempt + 1⟩ := by
        simp only [copyFileLoop, hf, copyFileAttempt]
      rw [hterm]
      exact ⟨rfl, rfl, by simp⟩
    | succ r2 =>
      have hstep : copyFileLoop env verify mr attempt (r2 + 1 + 1) dst trace sleeps =
          copyFileLoop env verify mr (attempt + 1) (r2 + 1)
            (cleanupDst (cleanupDst dst trace).1 (cleanupDst dst trace).2).1
            (cleanupDst (cleanupDst dst trace).1 (cleanupDst dst trace).2).2
            (sleeps ++ [backoffMs attempt]) := by
        conv_lhs => rw [copyFileLoop.eq_2]
        rw [hf]
        rfl
      rw [hstep]
      rcases ih (Nat.succ_pos r2) (attempt + 1) (cleanupDst (cleanupDst dst trace).1
          (cleanupDst dst trace).2).1 (cleanupDst (cleanupDst dst trace).1
          (cleanupDst dst trace).2).2 (sleeps ++ [backoffMs attempt]) with ⟨hr, ha, hs⟩
      refine ⟨hr, by rw [ha]; omega, ?_⟩
      rw [hs]
      simp only [Nat.succ_sub_one, List.append_assoc, List.singleton_append]
      rw [range_map_shift backoffMs r2 attempt]

theorem atomicLoop_allRaise (env : CopyEnv) (verify : Bool) (mr : Nat)
    (hf : ∀ a, env.fault a = Fault.raise) :
    ∀ rem, 0 < rem → ∀ attempt dst trace sleeps,
      (atomicLoop env verify mr attempt rem dst trace sleeps).result =
          Except.error (CopyError.copyFailedAfterRetries mr AttemptError.ioFault) ∧
      (atomicLoop env verify mr attempt rem dst trace sleeps).attempts = attempt + rem ∧
      (atomicLoop env verify mr attempt rem dst trace sleeps).sleeps =
        sleeps ++ (List.range (rem - 1)).map (fun i => backoffMs (attempt + i)) := by
  intro rem
  induction rem with
  | zero => intro h; omega
  | succ r ih =>
    intro _ attempt dst trace sleeps
    cases r with
    | zero =>
      have hterm : atomicLoop env verify mr attempt 1 dst trace sleeps =
          ⟨Except.error (CopyError.copyFailedAfterRetries mr AttemptError.ioFault),
            (atomicCleanup env verify attempt none dst trace).1,
            (atomicCleanup env verify attempt none dst trace).2,
            sleeps, attempt + 1⟩ := by
        simp only [atomicLoop, hf, atomicAttempt]
      rw [hterm]
      exact ⟨rfl, rfl, by simp⟩
    | succ r2 =>
      have hstep : atomicLoop env verify mr attempt (r2 + 1 + 1) dst trace sleeps =
          atomicLoop env verify mr (attempt + 1) (r2 + 1)
            (atomicCleanup env verify attempt none dst trace).1
            (atomicCleanup env verify attempt none dst trace).2
            (sleeps ++ [backoffMs attempt]) := by
        conv_lhs => rw [atomicLoop.eq_2]
        rw [hf]
        rfl
      rw [hstep]
      rcases ih (Nat.succ_pos r2) (attempt + 1)
          (atomicCleanup env verify attempt none dst trace).1
          (atomicCleanup env verify attempt none dst trace).2
          (sleeps ++ [backoffMs attempt]) with ⟨hr, ha, hs⟩
      refine ⟨hr, by rw [ha]; omega, ?_⟩
      rw [hs]
      simp only [Nat.succ_sub_one, List.append_assoc, List.singleton_append]
      rw [range_map_shift backoffMs r2 attempt]

theorem chain_lt_backoff (n : Nat) :
    List.Chain' (fun a b => a < b) ((List.range n).map backoffMs) := by
  rw [List.chain'_map]
  cases n with
  | zero => simp
  | succ m =>
    rw [List.chain'_range_succ]
    intro i _
    have h2 : 2 ^ i < 2 ^ (i + 1) := Nat.pow_lt_pow_right (by decide) (Nat.lt_succ_self i)
    unfold backoffMs
    omega

/-- C3: when the copy primitive raises IOError on every attempt, both copy
primitives perform exactly the configured maximum number of attempts, sleep
between consecutive attempts with strictly increasing backoff delays (500 ms,
1000 ms, ... doubling), and finally fail with the retries-exhausted error
naming the attempt count and the last underlying cause (the IOError). -/
theorem C3_retry_exhaustion (env : CopyEnv) (verify makeParents : Bool) (mr : Nat)
    (h1 : env.srcExists = true) (h2 : requiredSpace env.srcSize ≤ env.availableSpace)
    (h3 : 0 < mr) (hf : ∀ a, env.fault a = Fault.raise) :
    ((copy_file env verify makeParents mr).result =
        Except.error (CopyError.copyFailedAfterRetries mr AttemptError.ioFault) ∧
      (copy_file env verify makeParents mr).attempts = mr ∧
      (copy_file env verify makeParents mr).sleeps = (List.range (mr - 1)).map backoffMs ∧
      List.Chain' (fun a b => a < b) (copy_file env verify makeParents mr).sleeps) ∧
    ((atomic_copy env verify mr).result =
        Except.error (CopyError.copyFailedAfterRetries mr AttemptError.ioFault) ∧
      (atomic_copy env verify mr).attempts = mr ∧
      (atomic_copy env verify mr).sleeps = (List.range (mr - 1)).map backoffMs ∧
      List.Chain' (fun a b => a < b) (atomic_copy env verify mr).sleeps) := by
  constructor
  · rw [copy_file_eq_loop env verify makeParents mr h1 h2]
    rcases copyFileLoop_allRaise env verify mr hf mr h3 0 env.dst0
        (if makeParents then [FsOp.mkdirParents] else []) [] with ⟨hr, ha, hs⟩
    have hs2 : (copyFileLoop env verify mr 0 mr env.dst0
        (if makeParents then [FsOp.mkdirParents] else []) []).sleeps =
        (List.range (mr - 1)).map backoffMs := by
      rw [hs]
      simp
    exact ⟨hr, by rw [ha]; omega, hs2, by rw [hs2]; exact chain_lt_backoff (mr - 1)⟩
  · rw [atomic_copy_eq_loop env verify mr h1 h2]
    rcases atomicLoop_allRaise env verify mr hf mr h3 0 env.dst0 [FsOp.mkdirParents] []
      with ⟨hr, ha, hs⟩
    have hs2 : (atomicLoop env verify mr 0 mr env.dst0 [FsOp.mkdirParents] []).sleeps =
        (List.range (mr - 1)).map backoffMs := by
      rw [hs]
      simp
    exact ⟨hr, by rw [ha]; omega, hs2, by rw [hs2]; exact chain_lt_backoff (mr - 1)⟩

def cenvAllRaise : CopyEnv := ⟨true, 10, 1000, none, fun _ => Fault.raise⟩

theorem C3_retry_exhaustion_witness :
    ((copy_file cenvAllRaise true true 3).result =
        Except.error (CopyError.copyFailedAfterRetries 3 AttemptError.ioFault) ∧
      (copy_file cenvAllRaise true true 3).attempts = 3 ∧
      (copy_file cenvAllRaise true true 3).sleeps = (List.range 2).map backoffMs ∧
      List.Chain' (fun a b => a < b) (copy_file cenvAllRaise true true 3).sleeps) ∧
    ((atomic_copy cenvAllRaise true 3).result =
        Except.error (CopyError.copyFailedAfterRetries 3 AttemptError.ioFault) ∧
      (atomic_copy cenvAllRaise true 3).attempts = 3 ∧
      (atomic_copy cenvAllRaise true 3).sleeps = (List.range 2).map backoffMs ∧
      List.Chain' (fun a b => a < b) (atomic_copy cenvAllRaise true 3).sleeps) :=
  C3_retry_exhaustion cenvAllRaise true true 3 rfl (by decide) (by decide) (fun _ => rfl)

/- == Step and terminal evaluation lemmas for the retry loops == -/

theorem cleanupDst_fst (dst : Option Nat) (trace : List FsOp) : (cleanupDst dst trace).1 = none := by
  cases dst <;> rfl

theorem cleanupDst_trace (dst : Option Nat) (trace : List FsOp) :
    ∃ ext, (cleanupDst dst trace).2 = trace ++ ext := by
  cases dst with
  | none => exact ⟨[], by simp [cleanupDst]⟩
  | some s => exact ⟨[FsOp.unlinkDst], rfl⟩

theorem copyFileLoop_last_raise (env : CopyEnv) (verify : Bool) (mr attempt : Nat)
    (dst : Option Nat) (trace : List FsOp) (sleeps : List Nat)
    (hfa : env.fault attempt = Fault.raise) :
    copyFileLoop env verify mr attempt 1 dst trace sleeps =
      ⟨Except.error (CopyError.copyFailedAfterRetries mr AttemptError.ioFault),
        (cleanupDst (cleanupDst dst trace).1 (cleanupDst dst trace).2).1,
        (cleanupDst (cleanupDst dst trace).1 (cleanupDst dst trace).2).2,
        sleeps, attempt + 1⟩ := by
  conv_lhs => rw [copyFileLoop.eq_2]
  rw [hfa]
  rfl

theorem copyFileLoop_step_raise (env : CopyEnv) (verify : Bool) (mr attempt r2 : Nat)
    (dst : Option Nat) (trace : List FsOp) (sleeps : List Nat)
    (hfa : env.fault attempt = Fault.raise) :
    copyFileLoop env verify mr attempt (r2 + 1 + 1) dst trace sleeps =
      copyFileLoop env verify mr (attempt + 1) (r2 + 1)
        (cleanupDst (cleanupDst dst trace).1 (cleanupDst dst trace).2).1
        (cleanupDst (cleanupDst dst trace).1 (cleanupDst dst trace).2).2
        (sleeps ++ [backoffMs attempt]) := by
  conv_lhs => rw [copyFileLoop.eq_2]
  rw [hfa]
  rfl

theorem copyFileLoop_step_ok (env : CopyEnv) (mr attempt r : Nat) (dst : Option Nat)
    (trace : List FsOp) (sleeps : List Nat)
    (hfa : env.fault attempt = Fault.write env.srcSize) :
    copyFileLoop env true mr attempt (r + 1) dst trace sleeps =
      ⟨Except.ok (), some env.srcSize,
        (cleanupDst dst trace).2 ++ [FsOp.writeDst env.srcSize], sleeps, attempt + 1⟩ := by
  conv_lhs => rw [copyFileLoop.eq_2]
  rw [hfa]
  simp only [copyFileAttempt]
  rw [if_neg (by simp), if_neg (by rintro ⟨_, hp, hz⟩; omega)]

theorem copyFileLoop_last_mismatch (env : CopyEnv) (mr attempt n : Nat) (dst : Option Nat)
    (trace : List FsOp) (sleeps : List Nat)
    (hfa : env.fault attempt = Fault.write n) (hn : ¬ n = env.srcSize) :
    copyFileLoop env true mr attempt 1 dst trace sleeps =
      ⟨Except.error (CopyError.copyFailedAfterRetries mr
          (AttemptError.sizeMismatch env.srcSize n)), none,
        ((cleanupDst dst trace).2 ++ [FsOp.writeDst n]) ++ [FsOp.unlinkDst],
        sleeps, attempt + 1⟩ := by
  conv_lhs => rw [copyFileLoop.eq_2]
  rw [hfa]
  simp only [copyFileAttempt]
  rw [if_pos ⟨by trivial, hn⟩]
  rfl

theorem copyFileLoop_step_mismatch (env : CopyEnv) (mr attempt r2 n : Nat) (dst : Option Nat)
    (trace : List FsOp) (sleeps : List Nat)
    (hfa : env.fault attempt = Fault.write n) (hn : ¬ n = env.srcSize) :
    copyFileLoop env true mr attempt (r2 + 1 + 1) dst trace sleeps =
      copyFileLoop env true mr (attempt + 1) (r2 + 1) none
        (((cleanupDst dst trace).2 ++ [FsOp.writeDst n]) ++ [FsOp.unlinkDst])
        (sleeps ++ [backoffMs attempt]) := by
  conv_lhs => rw [copyFileLoop.eq_2]
  rw [hfa]
  simp only [copyFileAttempt]
  rw [if_pos ⟨by trivial, hn⟩]
  rfl

theorem atomicLoop_last_raise (env : CopyEnv) (mr attempt : Nat) (dst : Option Nat)
    (trace : List FsOp) (sleeps : List Nat) (hfa : env.fault attempt = Fault.raise) :
    atomicLoop env true mr attempt 1 dst trace sleeps =
      ⟨Except.error (CopyError.copyFailedAfterRetries mr AttemptError.ioFault),
        (atomicCleanup env true attempt none dst trace).1,
        (atomicCleanup env true attempt none dst trace).2, sleeps, attempt + 1⟩ := by
  conv_lhs => rw [atomicLoop.eq_2]
  rw [hfa]
  rfl

theorem atomicLoop_step_raise (env : CopyEnv) (mr attempt r2 : Nat) (dst : Option Nat)
    (trace : List FsOp) (sleeps : List Nat) (hfa : env.fault attempt = Fault.raise) :
    atomicLoop env true mr attempt (r2 + 1 + 1) dst trace sleeps =
      atomicLoop env true mr (attempt + 1) (r2 + 1)
        (atomicCleanup env true attempt none dst trace).1
        (atomicCleanup env true attempt none dst trace).2
        (sleeps ++ [backoffMs attempt]) := by
  conv_lhs => rw [atomicLoop.eq_2]
  rw [hfa]
  rfl

theorem atomicLoop_step_ok (env : CopyEnv) (mr attempt r : Nat) (dst : Option Nat)
    (trace : List FsOp) (sleeps : List Nat)
    (hfa : env.fault attempt = Fault.write env.srcSize) :
    atomicLoop env true mr attempt (r + 1) dst trace sleeps =
      ⟨Except.ok (), some env.srcSize,
        (trace ++ [FsOp.writeTmp attempt env.srcSize]) ++ [FsOp.replaceTmpDst attempt],
        sleeps, attempt + 1⟩ := by
  conv_lhs => rw [atomicLoop.eq_2]
  rw [hfa]
  simp only [atomicAttempt]
  rw [if_neg (by simp), if_neg (by rintro ⟨_, hp, hz⟩; omega), if_neg (by simp)]

theorem atomicLoop_last_mismatch (env : CopyEnv) (mr attempt n : Nat) (dst : Option Nat)
    (trace : List FsOp) (sleeps : List Nat)
    (hfa : env.fault attempt = Fault.write n) (hn : ¬ n = env.srcSize) :
    atomicLoop env true mr attempt 1 dst trace sleeps =
      ⟨Except.error (CopyError.copyFailedAfterRetries mr
          (AttemptError.sizeMismatch env.srcSize n)),
        (atomicCleanup env true attempt (some n) dst
          (trace ++ [FsOp.writeTmp attempt n])).1,
        (atomicCleanup env true attempt (some n) dst
          (trace ++ [FsOp.writeTmp attempt n])).2, sleeps, attempt + 1⟩ := by
  conv_lhs => rw [atomicLoop.eq_2]
  rw [hfa]
  simp only [atomicAttempt]
  rw [if_pos ⟨by trivial, hn⟩]

theorem atomicLoop_step_mismatch (env : CopyEnv) (mr attempt r2 n : Nat) (dst : Option Nat)
    (trace : List FsOp) (sleeps : List Nat)
    (hfa : env.fault attempt = Fault.write n) (hn : ¬ n = env.srcSize) :
    atomicLoop env true mr attempt (r2 + 1 + 1) dst trace sleeps =
      atomicLoop env true mr (attempt + 1) (r2 + 1)
        (atomicCleanup env true attempt (some n) dst
          (trace ++ [FsOp.writeTmp attempt n])).1
        (atomicCleanup env true attempt (some n) dst
          (trace ++ [FsOp.writeTmp attempt n])).2
        (sleeps ++ [backoffMs attempt]) := by
  conv_lhs => rw [atomicLoop.eq_2]
  rw [hfa]
  simp only [atomicAttempt]
  rw [if_pos ⟨by trivial, hn⟩]

/- == Success implies exact size at the destination == -/

theorem copyFileLoop_ok_dst (env : CopyEnv) (mr : Nat) :
    ∀ rem attempt dst trace sleeps,
      (copyFileLoop env true mr attempt rem dst trace sleeps).result = Except.ok () →
      (copyFileLoop env true mr attempt rem dst trace sleeps).dst = some env.srcSize := by
  intro rem
  induction rem with
  | zero =>
    intro attempt dst trace sleeps h
    simp [copyFileLoop] at h
  | succ r ih =>
    intro attempt dst trace sleeps h
    cases hfa : env.fault attempt with
    | raise =>
      cases r with
      | zero =>
        rw [copyFileLoop_last_raise env true mr attempt dst trace sleeps hfa] at h
        simp at h
      | succ r2 =>
        rw [copyFileLoop_step_raise env true mr attempt r2 dst trace sleeps hfa] at h ⊢
        exact ih _ _ _ _ h
    | write n =>
      by_cases hn : n = env.srcSize
      · subst hn
        rw [copyFileLoop_step_ok env mr attempt r dst trace sleeps hfa]
      · cases r with
        | zero =>
          rw [copyFileLoop_last_mismatch env mr attempt n dst trace sleeps hfa hn] at h
          simp at h
        | succ r2 =>
          rw [copyFileLoop_step_mismatch env mr attempt r2 n dst trace sleeps hfa hn] at h ⊢
          exact ih _ _ _ _ h

theorem atomicLoop_ok_dst (env : CopyEnv) (mr : Nat) :
    ∀ rem attempt dst trace sleeps,
      (atomicLoop env true mr attempt rem dst trace sleeps).result = Except.ok () →
      (atomicLoop env true mr attempt rem dst trace sleeps).dst = some env.srcSize := by
  intro rem
  induction rem with
  | zero =>
    intro attempt dst trace sleeps h
    simp [atomicLoop] at h
  | succ r ih =>
    intro attempt dst trace sleeps h
    cases hfa : env.fault attempt with
    | raise =>
      cases r with
      | zero =>
        rw [atomicLoop_last_raise env mr attempt dst trace sleeps hfa] at h
        simp at h
      | succ r2 =>
        rw [atomicLoop_step_raise env mr attempt r2 dst trace sleeps hfa] at h ⊢
        exact ih _ _ _ _ h
    | write n =>
      by_cases hn : n = env.srcSize
      · subst hn
        rw [atomicLoop_step_ok env mr attempt r dst trace sleeps hfa]
      · cases r with
        | zero =>
          rw [atomicLoop_last_mismatch env mr attempt n dst trace sleeps hfa hn] at h
          simp at h
        | succ r2 =>
          rw [atomicLoop_step_mismatch env mr attempt r2 n dst trace sleeps hfa hn] at h ⊢
          exact ih _ _ _ _ h

/- == Reduction helpers for the top-level entry points == -/

theorem copy_file_notfound_eq (env : CopyEnv) (verify makeParents : Bool) (mr : Nat)
    (h1 : env.srcExists = false) :
    copy_file env verify makeParents mr =
      ⟨Except.error CopyError.fileNotFound, env.dst0, [], [], 0⟩ := by
  unfold copy_file
  rw [if_pos h1]

theorem copy_file_space_eq (env : CopyEnv) (makeParents : Bool) (mr : Nat)
    (h1 : env.srcExists = true)
    (h2 : (true : Bool) = true ∧ 0 < env.srcSize ∧
      env.availableSpace < requiredSpace env.srcSize) :
    copy_file env true makeParents mr =
      ⟨Except.error (CopyError.insufficientSpace (requiredSpace env.srcSize)
          env.availableSpace), env.dst0,
        if makeParents then [FsOp.mkdirParents] else [], [], 0⟩ := by
  unfold copy_file
  rw [if_neg (by simp [h1]), if_pos h2]

theorem copy_file_loop_eq (env : CopyEnv) (verify makeParents : Bool) (mr : Nat)
    (h1 : env.srcExists = true)
    (h2 : ¬ (verify = true ∧ 0 < env.srcSize ∧
      env.availableSpace < requiredSpace env.srcSize)) :
    copy_file env verify makeParents mr =
      copyFileLoop env verify mr 0 mr env.dst0
        (if makeParents then [FsOp.mkdirParents] else []) [] := by
  unfold copy_file
  rw [if_neg (by simp [h1]), if_neg h2]

theorem atomic_copy_notfound_eq (env : CopyEnv) (verify : Bool) (mr : Nat)
    (h1 : env.srcExists = false) :
    atomic_copy env verify mr =
      ⟨Except.error CopyError.fileNotFound, env.dst0, [], [], 0⟩ := by
  unfold atomic_copy
  rw [if_pos h1]

theorem atomic_copy_space_eq (env : CopyEnv) (mr : Nat) (h1 : env.srcExists = true)
    (h2 : (true : Bool) = true ∧ 0 < env.srcSize ∧
      env.availableSpace < requiredSpace env.srcSize) :
    atomic_copy env true mr =
      ⟨Except.error (CopyError.insufficientSpace (requiredSpace env.srcSize)
          env.availableSpace), env.dst0, [FsOp.mkdirParents], [], 0⟩ := by
  unfold atomic_copy
  rw [if_neg (by simp [h1]), if_pos h2]

theorem atomic_copy_loop_eq (env : CopyEnv) (verify : Bool) (mr : Nat)
    (h1 : env.srcExists = true)
    (h2 : ¬ (verify = true ∧ 0 < env.srcSize ∧
      env.availableSpace < requiredSpace env.srcSize)) :
    atomic_copy env verify mr =
      atomicLoop env verify mr 0 mr env.dst0 [FsOp.mkdirParents] [] := by
  unfold atomic_copy
  rw [if_neg (by simp [h1]), if_neg h2]

theorem copy_file_ok_dst (env : CopyEnv) (mr : Nat)
    (h : (copy_file env true true mr).result = Except.ok ()) :
    (copy_file env true true mr).dst = some env.srcSize := by
  cases hsrc : env.srcExists with
  | false =>
    rw [copy_file_notfound_eq env true true mr hsrc] at h
    simp at h
  | true =>
    by_cases hsp : (true : Bool) = true ∧ 0 < env.srcSize ∧
        env.availableSpace < requiredSpace env.srcSize
    · rw [copy_file_space_eq env true mr hsrc hsp] at h
      simp at h
    · rw [copy_file_loop_eq env true true mr hsrc hsp] at h ⊢
      exact copyFileLoop_ok_dst env mr mr 0 env.dst0 _ _ h

theorem atomic_copy_ok_dst (env : CopyEnv) (mr : Nat)
    (h : (atomic_copy env true mr).result = Except.ok ()) :
    (atomic_copy env true mr).dst = some env.srcSize := by
  cases hsrc : env.srcExists with
  | false =>
    rw [atomic_copy_notfound_eq env true mr hsrc] at h
    simp at h
  | true =>
    by_cases hsp : (true : Bool) = true ∧ 0 < env.srcSize ∧
        env.availableSpace < requiredSpace env.srcSize
    · rw [atomic_copy_space_eq env mr hsrc hsp] at h
      simp at h
    · rw [atomic_copy_loop_eq env true mr hsrc hsp] at h ⊢
      exact atomicLoop_ok_dst env mr mr 0 env.dst0 _ _ h

theorem copy_file_zero_ok (env : CopyEnv) (mr : Nat) (h1 : env.srcExists = true)
    (h0 : env.srcSize = 0) (hf : env.fault 0 = Fault.write 0) (hmr : 0 < mr) :
    (copy_file env true true mr).result = Except.ok () ∧
    (copy_file env true true mr).dst = some 0 := by
  have hfa : env.fault 0 = Fault.write env.srcSize := by rw [h0]; exact hf
  have hsp : ¬ ((true : Bool) = true ∧ 0 < env.srcSize ∧
      env.availableSpace < requiredSpace env.srcSize) := by
    rintro ⟨_, hp, _⟩
    omega
  cases mr with
  | zero => omega
  | succ m =>
    rw [copy_file_loop_eq env true true (m + 1) h1 hsp,
      copyFileLoop_step_ok env (m + 1) 0 m env.dst0 _ [] hfa]
    exact ⟨rfl, by rw [h0]⟩

theorem atomic_copy_zero_ok (env : CopyEnv) (mr : Nat) (h1 : env.srcExists = true)
    (h0 : env.srcSize = 0) (hf : env.fault 0 = Fault.write 0) (hmr : 0 < mr) :
    (atomic_copy env true mr).result = Except.ok () ∧
    (atomic_copy env true mr).dst = some 0 := by
  have hfa : env.fault 0 = Fault.write env.srcSize := by rw [h0]; exact hf
  have hsp : ¬ ((true : Bool) = true ∧ 0 < env.srcSize ∧
      env.availableSpace < requiredSpace env.srcSize) := by
    rintro ⟨_, hp, _⟩
    omega
  cases mr with
  | zero => omega
  | succ m =>
    rw [atomic_copy_loop_eq env true (m + 1) h1 hsp,
      atomicLoop_step_ok env (m + 1) 0 m env.dst0 _ [] hfa]
    exact ⟨rfl, by rw [h0]⟩

/-- C4: a successful verified copy always leaves a destination of exactly the
source's byte size, through either primitive; and a zero-byte source is valid:
a clean attempt on it succeeds with an existing empty destination, not flagged
as a corrupt or empty-destination failure. -/
theorem C4_size_preserved :
    (∀ env mr, (copy_file env true true mr).result = Except.ok () →
        (copy_file env true true mr).dst = some env.srcSize) ∧
    (∀ env mr, (atomic_copy env true mr).result = Except.ok () →
        (atomic_copy env true mr).dst = some env.srcSize) ∧
    (∀ env mr, env.srcExists = true → env.srcSize = 0 → env.fault 0 = Fault.write 0 →
        0 < mr → (copy_file env true true mr).result = Except.ok () ∧
          (copy_file env true true mr).dst = some 0) ∧
    (∀ env mr, env.srcExists = true → env.srcSize = 0 → env.fault 0 = Fault.write 0 →
        0 < mr → (atomic_copy env true mr).result = Except.ok () ∧
          (atomic_copy env true mr).dst = some 0) :=
  ⟨copy_file_ok_dst, atomic_copy_ok_dst, copy_file_zero_ok, atomic_copy_zero_ok⟩

theorem C4_size_preserved_witness :
    ((copy_file ⟨true, 5, 100, none, fun _ => Fault.write 5⟩ true true 3).result =
        Except.ok () ∧
      (copy_file ⟨true, 5, 100, none, fun _ => Fault.write 5⟩ true true 3).dst = some 5) ∧
    ((atomic_copy ⟨true, 0, 0, none, fun _ => Fault.write 0⟩ true 3).result =
        Except.ok () ∧
      (atomic_copy ⟨true, 0, 0, none, fun _ => Fault.write 0⟩ true 3).dst = some 0) :=
  ⟨⟨by decide, C4_size_preserved.1 ⟨true, 5, 100, none, fun _ => Fault.write 5⟩ 3 (by decide)⟩,
    C4_size_preserved.2.2.2 ⟨true, 0, 0, none, fun _ => Fault.write 0⟩ 3 rfl rfl rfl
      (by decide)⟩

/- == C10: the destination after total failure == -/

theorem copyFileLoop_fail_dst (env : CopyEnv) (mr : Nat) :
    ∀ rem attempt dst trace sleeps n e,
      (copyFileLoop env true mr attempt rem dst trace sleeps).result =
        Except.error (CopyError.copyFailedAfterRetries n e) →
      (copyFileLoop env true mr attempt rem dst trace sleeps).dst = none := by
  intro rem
  induction rem with
  | zero =>
    intro attempt dst trace sleeps n e h
    simp [copyFileLoop] at h
  | succ r ih =>
    intro attempt dst trace sleeps n e h
    cases hfa : env.fault attempt with
    | raise =>
      cases r with
      | zero =>
        rw [copyFileLoop_last_raise env true mr attempt dst trace sleeps hfa]
        exact cleanupDst_fst _ _
      | succ r2 =>
        rw [copyFileLoop_step_raise env true mr attempt r2 dst trace sleeps hfa] at h ⊢
        exact ih _ _ _ _ _ _ h
    | write n2 =>
      by_cases hn : n2 = env.srcSize
      · subst hn
        rw [copyFileLoop_step_ok env mr attempt r dst trace sleeps hfa] at h
        simp at h
      · cases r with
        | zero =>
          rw [copyFileLoop_last_mismatch env mr attempt n2 dst trace sleeps hfa hn]
        | succ r2 =>
          rw [copyFileLoop_step_mismatch env mr attempt r2 n2 dst trace sleeps hfa hn] at h ⊢
          exact ih _ _ _ _ _ _ h

theorem copyFileAttempt_trace (env : CopyEnv) (verify : Bool) (dst : Option Nat)
    (trace : List FsOp) (fault : Fault) :
    ∃ ext, (copyFileAttempt env verify dst trace fault).2.2 = trace ++ ext := by
  cases fault with
  | raise => exact ⟨[], by simp [copyFileAttempt]⟩
  | write n =>
    simp only [copyFileAttempt]
    split_ifs <;> exact ⟨[FsOp.writeDst n], rfl⟩

theorem copyFileLoop_trace_ext (env : CopyEnv) (mr : Nat) :
    ∀ rem attempt dst trace sleeps, 0 < rem →
      ∃ ext, (copyFileLoop env true mr attempt rem dst trace sleeps).trace =
        (cleanupDst dst trace).2 ++ ext := by
  intro rem
  induction rem with
  | zero => intro _ _ _ _ h; omega
  | succ r ih =>
    intro attempt dst trace sleeps _
    cases hfa : env.fault attempt with
    | raise =>
      cases r with
      | zero =>
        rw [copyFileLoop_last_raise env true mr attempt dst trace sleeps hfa]
        rcases cleanupDst_trace (cleanupDst dst trace).1 (cleanupDst dst trace).2 with ⟨e1, he1⟩
        exact ⟨e1, he1⟩
      | succ r2 =>
        rw [copyFileLoop_step_raise env true mr attempt r2 dst trace sleeps hfa]
        rcases ih (attempt + 1) (cleanupDst (cleanupDst dst trace).1
            (cleanupDst dst trace).2).1 (cleanupDst (cleanupDst dst trace).1
            (cleanupDst dst trace).2).2 (sleeps ++ [backoffMs attempt]) (Nat.succ_pos r2)
          with ⟨e1, he1⟩
        rcases cleanupDst_trace (cleanupDst (cleanupDst dst trace).1
            (cleanupDst dst trace).2).1 (cleanupDst (cleanupDst dst trace).1
            (cleanupDst dst trace).2).2 with ⟨e2, he2⟩
        rcases cleanupDst_trace (cleanupDst dst trace).1 (cleanupDst dst trace).2
          with ⟨e3, he3⟩
        refine ⟨e3 ++ e2 ++ e1, ?_⟩
        rw [he1, he2, he3]
        simp [List.append_assoc]
    | write n =>
      by_cases hn : n = env.srcSize
      · subst hn
        rw [copyFileLoop_step_ok env mr attempt r dst trace sleeps hfa]
        exact ⟨[FsOp.writeDst env.srcSize], rfl⟩
      · cases r with
        | zero =>
          rw [copyFileLoop_last_mismatch env mr attempt n dst trace sleeps hfa hn]
          exact ⟨[FsOp.writeDst n] ++ [FsOp.unlinkDst], by simp⟩
        | succ r2 =>
          rw [copyFileLoop_step_mismatch env mr attempt r2 n dst trace sleeps hfa hn]
          rcases ih (attempt + 1) none (((cleanupDst dst trace).2 ++ [FsOp.writeDst n]) ++
              [FsOp.unlinkDst]) (sleeps ++ [backoffMs attempt]) (Nat.succ_pos r2)
            with ⟨e1, he1⟩
          refine ⟨[FsOp.writeDst n] ++ [FsOp.unlinkDst] ++ e1, ?_⟩
          rw [he1]
          simp [cleanupDst, List.append_assoc]

theorem copy_file_fail_dst (env : CopyEnv) (makeParents : Bool) (mr n : Nat)
    (e : AttemptError)
    (h : (copy_file env true makeParents mr).result =
      Except.error (CopyError.copyFailedAfterRetries n e)) :
    (copy_file env true makeParents mr).dst = none := by
  cases hsrc : env.srcExists with
  | false =>
    rw [copy_file_notfound_eq env true makeParents mr hsrc] at h
    simp at h
  | true =>
    by_cases hsp : (true : Bool) = true ∧ 0 < env.srcSize ∧
        env.availableSpace < requiredSpace env.srcSize
    · rw [copy_file_space_eq env makeParents mr hsrc hsp] at h
      simp at h
    · rw [copy_file_loop_eq env true makeParents mr hsrc hsp] at h ⊢
      exact copyFileLoop_fail_dst env mr mr 0 env.dst0 _ _ n e h

/-- C10: copy_file deletes a pre-existing destination rather than preserving
it: the first filesystem actions of a run that starts with an existing
destination are the parent-directory creation followed immediately by the
unlink of that destination (the unlink at the start of the first attempt), and
whenever the retry loop exhausts every attempt the destination is left absent
- so a destination that held valid content before the call is deleted, not
preserved. -/
theorem C10_preexisting_destination_deleted :
    (∀ env makeParents mr n e,
        (copy_file env true makeParents mr).result =
          Except.error (CopyError.copyFailedAfterRetries n e) →
        (copy_file env true makeParents mr).dst = none) ∧
    (∀ env mr s, env.dst0 = some s → env.srcExists = true →
        ¬ ((true : Bool) = true ∧ 0 < env.srcSize ∧
          env.availableSpace < requiredSpace env.srcSize) → 0 < mr →
        ∃ rest, (copy_file env true true mr).trace =
          FsOp.mkdirParents :: FsOp.unlinkDst :: rest) := by
  constructor
  · intro env makeParents mr n e h
    exact copy_file_fail_dst env makeParents mr n e h
  · intro env mr s hd h1 hsp hmr
    rw [copy_file_loop_eq env true true mr h1 hsp, hd]
    rcases copyFileLoop_trace_ext env mr mr 0 (some s)
        (if true then [FsOp.mkdirParents] else []) [] hmr with ⟨ext, hext⟩
    refine ⟨ext, ?_⟩
    rw [hext]
    simp [cleanupDst]

theorem C10_preexisting_destination_deleted_witness :
    ((copy_file ⟨true, 2, 100, some 9, fun _ => Fault.raise⟩ true true 2).result =
        Except.error (CopyError.copyFailedAfterRetries 2 AttemptError.ioFault) ∧
      (copy_file ⟨true, 2, 100, some 9, fun _ => Fault.raise⟩ true true 2).dst = none) ∧
    (∃ rest, (copy_file ⟨true, 2, 100, some 9, fun _ => Fault.raise⟩ true true 2).trace =
        FsOp.mkdirParents :: FsOp.unlinkDst :: rest) :=
  ⟨⟨by decide,
      C10_preexisting_destination_deleted.1 ⟨true, 2, 100, some 9, fun _ => Fault.raise⟩
        true 2 2 AttemptError.ioFault (by decide)⟩,
    C10_preexisting_destination_deleted.2 ⟨true, 2, 100, some 9, fun _ => Fault.raise⟩
      2 9 rfl rfl (by rintro ⟨_, _, hlt⟩; revert hlt; decide) (by decide)⟩

end PrinterSpec
